import Mathlib

/-!
Verification of the test-execution core of a relation-interface conformance
test harness (`interface_tester/interface_test.py`).

The embedding below translates the module's data model and operations into
Lean. Python exceptions become `Except` results; the module-level mutable
slots (`_TESTER_CTX`, `Tester.__instance__`) and the mutable `Tester` object
become explicit state records threaded through the operations. External
collaborators (the `scenario` package's `State`/`Relation`/`Event` values,
the `Context.run` simulated runtime, and the databag schema validator) are
modelled as plain data and opaque function parameters, since only their
shape is relied upon by this module.
-/

namespace InterfaceTest

/-- `Role(str, Enum)` with members `provider` and `requirer`. -/
inductive Role where
  | provider
  | requirer
deriving DecidableEq, Repr

/-- The `.value` string of a `Role` member, as it appears in f-strings. -/
def Role.toStr : Role → String
  | .provider => "provider"
  | .requirer => "requirer"

/-- `scenario.Relation` (external value object): the fields this module
reads or writes. Databags are string-to-string association lists. -/
structure Relation where
  interface : String
  endpoint : String
  local_app_data : List (String × String) := []
  local_unit_data : List (String × String) := []
  remote_app_name : Option String := none
deriving DecidableEq, Repr

/-- `scenario.State` (external value object): the relation list this module
manipulates, plus representative "other runtime facets" (`leader`, `config`)
that the module never touches and must preserve through `state.replace`. -/
structure State where
  relations : List Relation := []
  leader : Bool := false
  config : List (String × String) := []
deriving DecidableEq, Repr

/-- `State()`: the empty default state. -/
def emptyState : State := {}

/-- `scenario.Event` (external value object): a name, an optional bound
relation, and the runtime's `_is_relation_event` flag. -/
structure Event where
  name : String
  relation : Option Relation := none
  is_relation_event : Bool := false
deriving DecidableEq, Repr

/-- The databag schema collaborator: `validate({"unit": ..., "app": ...})`
either passes or raises a `RuntimeError` whose first argument is a message.
We model it as a function from the (unit, app) databag pair to an optional
error message (`some msg` = the raised error's message). -/
structure DataBagSchema where
  validate : List (String × String) → List (String × String) → Option String

/-- The exceptions this module raises or propagates. -/
inductive TErr where
  | runtimeError (msg : String)
  | invalidTesterRun (msg : String)
  | noTesterInstance (msg : String)
  | noSchema (msg : String)
  | invalidTestCase (msg : String)
  | schemaValidation (msgs : List String)
  | valueError (msg : String)
deriving DecidableEq, Repr

/-- `_InterfaceTestContext`: the per-test descriptor handed over by the
discovery collaborator. The `charm_type` / `meta` / `config` / `actions`
bundle only ever flows into `scenario.Context(...).run(event, state)`, so we
collapse it into the opaque simulated-runtime function `charm_run`. -/
structure InterfaceTestContext where
  interface_name : String
  version : Nat
  role : Role
  schema : Option DataBagSchema := none
  supported_endpoints : Role → List String
  charm_run : Event → State → State

/-- The mutable fields of a `Tester` instance. -/
structure TesterState where
  state_in : State
  name : Option String := none
  state_template : Option State := none
  state_out : Option State := none
  has_run : Bool := false
  has_checked_schema : Bool := false
deriving DecidableEq, Repr

/-- The module-level mutable slots: `_TESTER_CTX` and `Tester.__instance__`. -/
structure GlobalState where
  tester_ctx : Option InterfaceTestContext := none
  tester_instance : Option TesterState := none

/-! ## Relation-state merge engine (`Tester._generate_relations_state`) -/

/-- `operator.ne` on interface names. -/
def opNe (a b : String) : Bool := a != b

/-- `operator.eq` on interface names. -/
def opEq (a b : String) : Bool := a == b

/-- `filter_relations(rels, op)`: keep the relations whose `interface`
relates to the tested interface name by `op`. -/
def filter_relations (op : String → String → Bool) (interface_name : String)
    (rels : List Relation) : List Relation :=
  rels.filter (fun r => op r.interface interface_name)

/-- Message of the `ValueError` raised when no endpoint is available. -/
def noEndpointMsg (role : Role) (interface_name : String) : String :=
  "no endpoint found for " ++ role.toStr ++ "/" ++ interface_name ++ "."

/-- Message of the `ValueError` raised when several endpoints are available. -/
def multipleEndpointsMsg (role : Role) (interface_name : String)
    (endpoints : List String) : String :=
  "Multiple endpoints found for " ++ role.toStr ++ "/" ++ interface_name ++ ": "
    ++ toString endpoints
    ++ ": cannot guess which one it is we're supposed to be testing"

/-- The relation synthesized by the merge engine:
`Relation(interface=interface_name, endpoint=endpoint)` with all other
fields left at their defaults (empty databags). -/
def synthRelation (interface_name endpoint : String) : Relation :=
  { interface := interface_name, endpoint := endpoint }

/-- `Tester._generate_relations_state(state_template, input_state,
supported_endpoints, role)` with `interface_name` read from the context.
The source's `if input_state:` test is always true at the call site
(`self._state_in` is a `State` instance, which is truthy), so the extend
step is unconditional here. Logging-only statements are dropped. -/
def _generate_relations_state (interface_name : String)
    (state_template : State) (input_state : State)
    (supported_endpoints : Role → List String) (role : Role) :
    Except TErr (List Relation) :=
  let relations := filter_relations opNe interface_name state_template.relations
  let relations := relations ++
    filter_relations opEq interface_name input_state.relations
  if (filter_relations opEq interface_name relations).isEmpty then
    let endpoints_for_interface := supported_endpoints role
    if endpoints_for_interface.length < 1 then
      .error (.valueError (noEndpointMsg role interface_name))
    else if endpoints_for_interface.length > 1 then
      .error (.valueError
        (multipleEndpointsMsg role interface_name endpoints_for_interface))
    else
      .ok (relations ++
        [synthRelation interface_name (endpoints_for_interface.headD "")])
  else
    .ok relations

/-! ## Event coercion (`Tester._coerce_event`) -/

/-- The separator `"-relation-"` of relation event names, as characters. -/
def sepChars : List Char := "-relation-".data

/-- Downward search for the greatest `i < n` satisfying `p`. -/
def rfindAux (p : Nat → Bool) : Nat → Option Nat
  | 0 => none
  | n + 1 => if p n then some n else rfindAux p n

/-- The index of the last occurrence of `sep` in `s`, if any: the greatest
`i` such that `sep` is a prefix of `s` dropped at `i`. -/
def rfindIdx (sep s : List Char) : Option Nat :=
  rfindAux (fun i => List.isPrefixOf sep (s.drop i)) (s.length + 1)

/-- Python `str.rpartition(sep)`: split at the last occurrence of `sep`,
returning `(before, after)`; `none` when `sep` does not occur (Python then
returns `("", "", s)`, i.e. an empty `before` part). -/
def rpartition (sep s : List Char) : Option (List Char × List Char) :=
  match rfindIdx sep s with
  | none => none
  | some i => some (s.take i, s.drop (i + sep.length))

/-- The `run()` argument: `Union[str, Event]`. The source also raises
`InvalidTestCaseError` on any other runtime type, a branch a typed sum
cannot reach. -/
inductive RawEvent where
  | str (s : String)
  | evt (e : Event)

/-- Message of the `InvalidTestCaseError` raised for a relation event
without a bound relation. -/
def unboundRelationEventMsg : String :=
  "This test case was passed an Event representing a relation event."
    ++ "However it does not have a Relation. Please pass it to the Event like so: "
    ++ "evt = Event('my_relation_changed', relation=Relation(...))"

/-- `Tester._coerce_event(raw_event, relation)`. A string is split with
`rpartition("-relation-")`; when both the endpoint part and the kind part
are non-empty, a bound `Event` is built around `relation` with its
`endpoint` replaced by the parsed endpoint part, otherwise an unbound
`Event` is returned. An `Event` argument passes through unchanged unless it
is a relation event with no bound relation, which raises. -/
def _coerce_event (raw_event : RawEvent) (relation : Relation) :
    Except TErr Event :=
  match raw_event with
  | .str raw =>
    match rpartition sepChars raw.data with
    | some (ep_name, evt_kind) =>
      if !ep_name.isEmpty && !evt_kind.isEmpty then
        .ok { name := raw,
              relation := some { relation with endpoint := String.mk ep_name },
              is_relation_event := true }
      else
        .ok { name := raw }
    | none => .ok { name := raw }
  | .evt e =>
    if e.is_relation_event && e.relation.isNone then
      .error (.invalidTestCase unboundRelationEventMsg)
    else
      .ok e

/-! ## Schema assertions and lifecycle (`Tester` methods) -/

/-- Message of the `NoSchemaError` raised by `assert_schema_valid`. -/
def noSchemaMsg (ctx : InterfaceTestContext) : String :=
  "No schemas found for " ++ ctx.interface_name ++ "/" ++ toString ctx.version
    ++ "/" ++ ctx.role.toStr ++ ";call skip_schema_validation() manually."

/-- `Tester.assert_schema_valid(schema=None)`. Sets `_has_checked_schema`
first, then checks `_has_run`, resolves the schema (explicit argument wins
over the context's), and validates the `{unit, app}` databag pair of every
relation of the output state whose interface is the tested one, collecting
every failure message before raising `SchemaValidationError`. The source
reads `self._state_out.relations` directly; `state_out` is always set when
`has_run` is true, and we default to the empty state otherwise. -/
def assert_schema_valid (ctx : InterfaceTestContext) (t : TesterState)
    (schema : Option DataBagSchema) : TesterState × Except TErr Unit :=
  let t := { t with has_checked_schema := true }
  if !t.has_run then
    (t, .error (.runtimeError "call Tester.run() first"))
  else
    match schema.orElse (fun _ => ctx.schema) with
    | none => (t, .error (.noSchema (noSchemaMsg ctx)))
    | some databag_schema =>
      let out := t.state_out.getD emptyState
      let errors :=
        (out.relations.filter (fun r => r.interface == ctx.interface_name)).filterMap
          (fun relation =>
            databag_schema.validate relation.local_unit_data relation.local_app_data)
      if errors.isEmpty then (t, .ok ())
      else (t, .error (.schemaValidation errors))

/-- `Tester._check_has_run()`. -/
def _check_has_run (t : TesterState) : Except TErr Unit :=
  if !t.has_run then .error (.invalidTesterRun "call Tester.run() first")
  else .ok ()

/-- `Tester.assert_relation_data_empty()`: checks `has_run` first, and only
then marks the schema decision as resolved. -/
def assert_relation_data_empty (t : TesterState) :
    TesterState × Except TErr Unit :=
  match _check_has_run t with
  | .error e => (t, .error e)
  | .ok _ => ({ t with has_checked_schema := true }, .ok ())

/-- `Tester.skip_schema_validation()`: checks `has_run` first, and only
then marks the schema decision as resolved. -/
def skip_schema_validation (t : TesterState) :
    TesterState × Except TErr Unit :=
  match _check_has_run t with
  | .error e => (t, .error e)
  | .ok _ => ({ t with has_checked_schema := true }, .ok ())

/-- `Tester._finalize()`, minus the singleton release (a module-slot write,
handled by `tester_context_exit`): the two lifecycle checks. -/
def _finalize (t : TesterState) : Except TErr Unit :=
  if !t.has_run then
    .error (.invalidTesterRun "call .run() before returning")
  else if !t.has_checked_schema then
    .error (.invalidTesterRun
      "call .skip_schema_validation(), or ... before returning")
  else
    .ok ()

/-- The outcome of the `with tester_context(...)` body: it either returned
normally or raised an exception. -/
inductive BodyOutcome where
  | ok
  | exc (e : TErr)

/-- The exit path of the `tester_context` context manager. The generator's
`yield` is not wrapped in try/finally, so when the body raises, the code
after `yield` never runs: the exception propagates, and neither the
instance check nor `_finalize` executes (and the singleton slot is left as
is). On a normal exit, a missing instance raises `NoTesterInstanceError`;
otherwise `_finalize` runs, and only when it passes is the singleton slot
cleared (`Tester.__instance__ = None` is unreachable after a raise). The
result pairs the new `Tester.__instance__` slot with the outcome. -/
def tester_context_exit (tester_instance : Option TesterState)
    (body : BodyOutcome) : Option TesterState × Except TErr Unit :=
  match body with
  | .exc e => (tester_instance, .error e)
  | .ok =>
    match tester_instance with
    | none =>
      (none, .error (.noTesterInstance
        "invalid tester_context usage: no Tester instance created"))
    | some t =>
      match _finalize t with
      | .error e => (some t, .error e)
      | .ok _ => (none, .ok ())

/-- `Tester.__init__(state_in=None, name=None)`. The singleton check comes
first; the slot is assigned before the context check, so on the
no-active-context failure the (half-initialized) instance is left in the
slot. `state_in or State()` defaults a missing input state to `State()`. -/
def Tester_init (g : GlobalState) (state_in : Option State)
    (name : Option String) : GlobalState × Except TErr TesterState :=
  match g.tester_instance with
  | some _ => (g, .error (.runtimeError "Tester is a singleton."))
  | none =>
    let t : TesterState :=
      { state_in := state_in.getD emptyState, name := name }
    match g.tester_ctx with
    | none =>
      ({ g with tester_instance := some t },
       .error (.runtimeError
         "Tester can only be initialized inside a tester context."))
    | some _ => ({ g with tester_instance := some t }, .ok t)

/-! ## Running the scenario (`Tester.run` / `Tester._run`) -/

/-- `Tester._run(event)`. Sets `_has_run` unconditionally at entry, copies
the state template (or the empty state), merges the relation lists,
replaces the state's relations (`State` is frozen, so `state.replace`
builds a new value), locates the relation under test, coerces the event,
and hands `(event, state)` to the simulated runtime. The source's
`next(filter(...))` raises `StopIteration` when no relation matches, a
branch the merge engine makes unreachable. -/
def _run (ctx : InterfaceTestContext) (t : TesterState) (event : RawEvent) :
    TesterState × Except TErr State :=
  let t := { t with has_run := true }
  let input_state := t.state_in
  let state := t.state_template.getD emptyState
  match _generate_relations_state ctx.interface_name state input_state
      ctx.supported_endpoints ctx.role with
  | .error e => (t, .error e)
  | .ok relations =>
    let modified_state := { state with relations := relations }
    match relations.find? (fun r => r.interface == ctx.interface_name) with
    | none => (t, .error (.runtimeError "StopIteration"))
    | some relation =>
      match _coerce_event event relation with
      | .error e => (t, .error e)
      | .ok evt => (t, .ok (ctx.charm_run evt modified_state))

/-- `Tester.run(event)`: asserts a context is active, delegates to `_run`,
and records the output state on success (an exception inside `_run`
propagates with `_state_out` left unset but `_has_run` already true). -/
def Tester_run (tester_ctx : Option InterfaceTestContext) (t : TesterState)
    (event : RawEvent) : TesterState × Except TErr State :=
  match tester_ctx with
  | none => (t, .error (.runtimeError "tester cannot run: no _TESTER_CTX set"))
  | some ctx =>
    match _run ctx t event with
    | (t', .error e) => (t', .error e)
    | (t', .ok state_out) =>
      ({ t' with state_out := some state_out }, .ok state_out)

/-! ## Helper lemmas on relation filtering -/

theorem filter_relations_ne_then_eq (n : String) (l : List Relation) :
    filter_relations opEq n (filter_relations opNe n l) = [] := by
  simp only [filter_relations, List.filter_filter, opEq, opNe]
  apply List.filter_eq_nil_iff.mpr
  intro r _
  simp [bne]

theorem filter_relations_eq_idem (n : String) (l : List Relation) :
    filter_relations opEq n (filter_relations opEq n l) =
      filter_relations opEq n l := by
  simp [filter_relations, List.filter_filter]

theorem filter_relations_append (op : String → String → Bool) (n : String)
    (a b : List Relation) :
    filter_relations op n (a ++ b) =
      filter_relations op n a ++ filter_relations op n b := by
  simp [filter_relations]

/-- C1: for every state template `T`, input state `I` and tested interface
name, a successful merge returns exactly the relations of `T` whose
interface differs from the tested one (in `T`'s order), followed by the
tested-interface relations of `I` when `I` supplies at least one, or by a
single synthesized relation (the role's unique endpoint, empty databags)
when `I` supplies none — never both, and the result always contains at
least one relation matching the tested interface. -/
theorem generate_relations_state_spec
    (interface_name : String) (T I : State)
    (eps : Role → List String) (role : Role) (rels : List Relation)
    (h : _generate_relations_state interface_name T I eps role = .ok rels) :
    ((filter_relations opEq interface_name I.relations ≠ [] ∧
        rels = filter_relations opNe interface_name T.relations ++
          filter_relations opEq interface_name I.relations) ∨
      (filter_relations opEq interface_name I.relations = [] ∧
        ∃ e, eps role = [e] ∧
          rels = filter_relations opNe interface_name T.relations ++
            [synthRelation interface_name e])) ∧
    filter_relations opEq interface_name rels ≠ [] := by
  unfold _generate_relations_state at h
  dsimp only at h
  rw [filter_relations_append, filter_relations_ne_then_eq,
    filter_relations_eq_idem, List.nil_append] at h
  by_cases hI : filter_relations opEq interface_name I.relations = []
  · rw [hI] at h
    simp only [List.isEmpty_nil, if_true, List.append_nil] at h
    rcases heps : (eps role).length with _ | n
    · rw [List.length_eq_zero] at heps
      rw [heps] at h
      simp at h
    · rcases n with _ | n
      · have ⟨e, he⟩ := List.length_eq_one.mp heps
        rw [he] at h
        simp only [List.length_singleton, Nat.lt_irrefl, if_false,
          Nat.lt_irrefl, List.headD_cons] at h
        cases h
        constructor
        · exact Or.inr ⟨hI, e, he, rfl⟩
        · rw [filter_relations_append, filter_relations_ne_then_eq,
            List.nil_append]
          simp [filter_relations, synthRelation, opEq]
      · rw [heps] at h
        simp at h
  · rw [if_neg (by simpa [List.isEmpty_iff] using hI)] at h
    cases h
    constructor
    · exact Or.inl ⟨hI, rfl⟩
    · rw [filter_relations_append, filter_relations_ne_then_eq,
        filter_relations_eq_idem, List.nil_append]
      exact hI

/-- Sample data used to instantiate the merge-engine theorems. -/
def relOther : Relation := { interface := "other", endpoint := "o" }

def relDbT : Relation := { interface := "db", endpoint := "tdb" }

def relDbI : Relation := { interface := "db", endpoint := "idb" }

def sampleT : State := { relations := [relOther, relDbT] }

def sampleI : State := { relations := [relDbI] }

def sampleEps : Role → List String := fun _ => ["db"]

/-- C1 witness: the merge of the sample template and input state succeeds
with `[relOther, relDbI]`, and that list contains a tested-interface
relation. -/
theorem generate_relations_state_spec_witness :
    filter_relations opEq "db" [relOther, relDbI] ≠ [] :=
  (generate_relations_state_spec "db" sampleT sampleI sampleEps .provider
    [relOther, relDbI] (by rfl)).2

/-- C4: when no relation matching the tested interface survives the merge
of the template and the input state, synthesis raises `ValueError` for an
endpoint list of length 0 ("no endpoint found") and for length ≥ 2
(ambiguous), and succeeds using the unique endpoint otherwise. -/
theorem generate_relations_state_synthesis_errors
    (interface_name : String) (T I : State)
    (eps : Role → List String) (role : Role)
    (hI : filter_relations opEq interface_name I.relations = []) :
    ((eps role).length = 0 →
      _generate_relations_state interface_name T I eps role =
        .error (.valueError (noEndpointMsg role interface_name))) ∧
    (2 ≤ (eps role).length →
      _generate_relations_state interface_name T I eps role =
        .error (.valueError
          (multipleEndpointsMsg role interface_name (eps role)))) ∧
    (∀ e, eps role = [e] →
      _generate_relations_state interface_name T I eps role =
        .ok (filter_relations opNe interface_name T.relations ++
          [synthRelation interface_name e])) := by
  unfold _generate_relations_state
  dsimp only
  rw [filter_relations_append, filter_relations_ne_then_eq,
    filter_relations_eq_idem, List.nil_append, hI]
  simp only [List.isEmpty_nil, if_true, List.append_nil]
  refine ⟨?_, ?_, ?_⟩
  · intro h0
    rw [h0]
    simp
  · intro h2
    rw [if_neg (by omega), if_pos (by omega)]
  · intro e he
    rw [he]
    simp

/-- C4 witness: with the sample template, an empty input state and an empty
endpoint list, the merge raises the "no endpoint found" `ValueError`. -/
theorem generate_relations_state_synthesis_errors_witness :
    _generate_relations_state "db" sampleT emptyState (fun _ => [])
      .provider = .error (.valueError (noEndpointMsg .provider "db")) :=
  (generate_relations_state_synthesis_errors "db" sampleT emptyState
    (fun _ => []) .provider (by rfl)).1 rfl

instance {ε α : Type} [DecidableEq ε] [DecidableEq α] :
    DecidableEq (Except ε α) := fun x y =>
  match x, y with
  | .error a, .error b =>
    if h : a = b then isTrue (by rw [h])
    else isFalse (fun hh => h (Except.error.inj hh))
  | .ok a, .ok b =>
    if h : a = b then isTrue (by rw [h])
    else isFalse (fun hh => h (Except.ok.inj hh))
  | .error _, .ok _ => isFalse Except.noConfusion
  | .ok _, .error _ => isFalse Except.noConfusion

/-- A sample context for instantiating the stateful theorems: tested
interface "db", one supported provider endpoint, a simulated runtime that
records the event name it saw in the `leader` facet. -/
def sampleCtx : InterfaceTestContext :=
  { interface_name := "db"
    version := 42
    role := .provider
    schema := none
    supported_endpoints := fun _ => ["db"]
    charm_run := fun e s => { s with leader := e.name == "ping" } }

/-- A fresh tester with an empty input state. -/
def sampleT0 : TesterState := { state_in := emptyState }

/-- A tester that has run (with a recorded output) but has not resolved the
schema decision. -/
def sampleTRun : TesterState :=
  { state_in := emptyState, state_out := some emptyState, has_run := true }

/-- C7: coercing an already-constructed Event raises
`InvalidTestCaseError` when it is a relation event with no bound relation,
and returns the Event unchanged in every other case (in particular it is
the identity on bound relation events). -/
theorem coerce_event_event_arg (e : Event) (rel : Relation) :
    (e.is_relation_event = true → e.relation = none →
      _coerce_event (.evt e) rel =
        .error (.invalidTestCase unboundRelationEventMsg)) ∧
    (e.is_relation_event = false ∨ e.relation ≠ none →
      _coerce_event (.evt e) rel = .ok e) := by
  constructor
  · intro h1 h2
    simp [_coerce_event, h1, h2]
  · intro h
    rcases h with h | h
    · simp [_coerce_event, h]
    · cases hrel : e.relation with
      | none => exact absurd hrel h
      | some r => simp [_coerce_event, hrel]

/-- C7 witness: a relation event with no bound relation is rejected. -/
theorem coerce_event_event_arg_witness :
    _coerce_event
      (.evt { name := "db-relation-changed", is_relation_event := true })
      relDbI = .error (.invalidTestCase unboundRelationEventMsg) :=
  (coerce_event_event_arg
    { name := "db-relation-changed", is_relation_event := true } relDbI).1
    rfl rfl

/-- C8: constructing a Tester fails exactly when another instance is live
or no test context is active, and a construction without an input state
defaults it to the empty State. -/
theorem Tester_init_spec (g : GlobalState) (state_in : Option State)
    (name : Option String) :
    ((∃ e, (Tester_init g state_in name).2 = .error e) ↔
      (g.tester_instance ≠ none ∨ g.tester_ctx = none)) ∧
    (g.tester_instance = none → g.tester_ctx ≠ none →
      ∃ t, (Tester_init g none name).2 = .ok t ∧ t.state_in = emptyState) := by
  constructor
  · cases hinst : g.tester_instance with
    | some t => simp [Tester_init, hinst]
    | none =>
      cases hctx : g.tester_ctx with
      | none => simp [Tester_init, hinst, hctx]
      | some c => simp [Tester_init, hinst, hctx]
  · intro hinst hctx
    cases hc : g.tester_ctx with
    | none => exact absurd hc hctx
    | some c =>
      refine ⟨{ state_in := emptyState, name := name }, ?_, rfl⟩
      simp [Tester_init, hinst, hc, Option.getD, emptyState]

/-- The global state used to witness a successful construction. -/
def sampleG : GlobalState := { tester_ctx := some sampleCtx }

/-- C8 witness: with an active context and no live instance, construction
succeeds and defaults the input state to the empty State. -/
theorem Tester_init_spec_witness :
    ∃ t, (Tester_init sampleG none none).2 = .ok t ∧
      t.state_in = emptyState :=
  (Tester_init_spec sampleG none none).2 rfl (by simp [sampleG])

/-- C10: `assert_schema_valid` marks the schema decision as resolved at
entry, unconditionally — even on calls that then raise — so a later
finalization of a tester that had run never reports an unresolved schema
decision. -/
theorem assert_schema_valid_marks_checked (ctx : InterfaceTestContext)
    (t : TesterState) (schema : Option DataBagSchema) :
    (assert_schema_valid ctx t schema).1.has_checked_schema = true ∧
    (t.has_run = true →
      _finalize (assert_schema_valid ctx t schema).1 = .ok ()) := by
  have hfst : (assert_schema_valid ctx t schema).1 =
      { t with has_checked_schema := true } := by
    unfold assert_schema_valid
    dsimp only
    split
    · rfl
    · split
      · rfl
      · split
        · rfl
        · rfl
  refine ⟨by rw [hfst], ?_⟩
  intro hr
  rw [hfst]
  unfold _finalize
  simp [hr]

/-- C10 witness: after a failed `assert_schema_valid` call (no schema is
available for `sampleCtx`), finalization passes for a tester that had run. -/
theorem assert_schema_valid_marks_checked_witness :
    _finalize (assert_schema_valid sampleCtx sampleTRun none).1 = .ok () :=
  (assert_schema_valid_marks_checked sampleCtx sampleTRun none).2 rfl

/-- C2 counterexample: when the `with tester_context(...)` body raises, the
generator's code after `yield` never runs, so no lifecycle verification
happens at scope exit: with a tester that ran but never resolved its schema
decision, the exit propagates the body's own exception instead of the
`InvalidTesterRunError` the claim requires, and the singleton stays set. -/
theorem tester_context_exit_counterexample :
    tester_context_exit (some sampleTRun) (.exc (.runtimeError "boom")) =
      (some sampleTRun, .error (.runtimeError "boom")) ∧
    (tester_context_exit (some sampleTRun) (.exc (.runtimeError "boom"))).2 ≠
      .error (.invalidTesterRun
        "call .skip_schema_validation(), or ... before returning") := by
  exact ⟨rfl, by decide⟩

/-- C2 (amended): on every NORMAL exit of the activation scope the
verification runs — no instance raises `NoTesterInstanceError`, an instance
that never ran or never resolved its schema decision raises
`InvalidTesterRunError` (leaving the singleton in place), and otherwise the
singleton is released; on an exit caused by an exception in the body, the
exception propagates with no verification and the slot unchanged. -/
theorem tester_context_exit_spec (inst : Option TesterState) (e : TErr) :
    (tester_context_exit inst (.exc e) = (inst, .error e)) ∧
    (tester_context_exit none .ok =
      (none, .error (.noTesterInstance
        "invalid tester_context usage: no Tester instance created"))) ∧
    (∀ t, inst = some t →
      (t.has_run = false →
        tester_context_exit inst .ok =
          (some t, .error (.invalidTesterRun "call .run() before returning"))) ∧
      (t.has_run = true → t.has_checked_schema = false →
        tester_context_exit inst .ok =
          (some t, .error (.invalidTesterRun
            "call .skip_schema_validation(), or ... before returning"))) ∧
      (t.has_run = true → t.has_checked_schema = true →
        tester_context_exit inst .ok = (none, .ok ()))) := by
  refine ⟨rfl, rfl, ?_⟩
  rintro t rfl
  refine ⟨?_, ?_, ?_⟩
  · intro hr
    simp [tester_context_exit, _finalize, hr]
  · intro hr hc
    simp [tester_context_exit, _finalize, hr, hc]
  · intro hr hc
    simp [tester_context_exit, _finalize, hr, hc]

/-- A tester that ran and resolved its schema decision. -/
def sampleTDone : TesterState :=
  { state_in := emptyState, state_out := some emptyState,
    has_run := true, has_checked_schema := true }

/-- C2 witness: a completed tester passes the exit verification and the
singleton slot is released. -/
theorem tester_context_exit_spec_witness :
    tester_context_exit (some sampleTDone) .ok = (none, .ok ()) :=
  ((tester_context_exit_spec (some sampleTDone)
    (.runtimeError "unused")).2.2 sampleTDone rfl).2.2 rfl rfl

/-! ## Behavior of `run()` -/

theorem _run_fst_eq (ctx : InterfaceTestContext) (t : TesterState)
    (ev : RawEvent) : (_run ctx t ev).1 = { t with has_run := true } := by
  unfold _run
  dsimp only
  split
  · rfl
  · split
    · rfl
    · split
      · rfl
      · rfl

theorem Tester_run_sets_has_run (ctx : InterfaceTestContext)
    (t : TesterState) (ev : RawEvent) :
    (Tester_run (some ctx) t ev).1.has_run = true := by
  have h := _run_fst_eq ctx t ev
  unfold Tester_run
  rcases hr : _run ctx t ev with ⟨t', r⟩
  rw [hr] at h
  cases r <;> simp_all

/-- The first run of the sample tester: succeeds by synthesizing the
relation under test. -/
def runOnce : TesterState × Except TErr State :=
  Tester_run (some sampleCtx) sampleT0 (.str "ping")

/-- A second run on the very same tester. -/
def runTwice : TesterState × Except TErr State :=
  Tester_run (some sampleCtx) runOnce.1 (.str "pong")

/-- C3 counterexample: the source's `run()` has no guard on `_has_run`: a
second call on the same Tester is not rejected — it executes the scenario
again and overwrites the recorded output state. -/
theorem Tester_run_second_call_counterexample :
    runOnce.1.has_run = true ∧
    runTwice.2 =
      .ok { relations := [synthRelation "db" "db"], leader := false } ∧
    runOnce.1.state_out =
      some { relations := [synthRelation "db" "db"], leader := true } ∧
    runTwice.1.state_out =
      some { relations := [synthRelation "db" "db"], leader := false } := by
  exact ⟨rfl, rfl, rfl, rfl⟩

/-- C3 (amended): the first `run()` sets `has_run` to true and it stays
true, but a second call is not rejected: `run()` never reads `has_run`, so
its outcome is identical whatever the flag's value (a second call executes
again and overwrites the recorded output state). -/
theorem Tester_run_no_second_call_guard (ctx : InterfaceTestContext)
    (t : TesterState) (ev : RawEvent) (b b' : Bool) :
    Tester_run (some ctx) { t with has_run := b } ev =
      Tester_run (some ctx) { t with has_run := b' } ev ∧
    (Tester_run (some ctx) t ev).1.has_run = true :=
  ⟨rfl, Tester_run_sets_has_run ctx t ev⟩

/-- C9: the state handed to the simulated-runtime collaborator is the state
template (or the empty State when none was declared) with ONLY its
relations replaced by the merged list: every other facet is unchanged, and
the tester's recorded template is not modified by the run. -/
theorem Tester_run_frame (ctx : InterfaceTestContext) (t : TesterState)
    (ev : RawEvent) (rels : List Relation) (rel : Relation) (evt : Event)
    (hg : _generate_relations_state ctx.interface_name
      (t.state_template.getD emptyState) t.state_in
      ctx.supported_endpoints ctx.role = .ok rels)
    (hf : rels.find? (fun r => r.interface == ctx.interface_name) = some rel)
    (hc : _coerce_event ev rel = .ok evt) :
    ∃ st : State,
      (Tester_run (some ctx) t ev).2 = .ok (ctx.charm_run evt st) ∧
      st.relations = rels ∧
      st.leader = (t.state_template.getD emptyState).leader ∧
      st.config = (t.state_template.getD emptyState).config ∧
      (Tester_run (some ctx) t ev).1.state_template = t.state_template := by
  refine ⟨{ t.state_template.getD emptyState with relations := rels },
    ?_, rfl, rfl, rfl, ?_⟩ <;>
  · unfold Tester_run _run
    dsimp only
    rw [hg]
    dsimp only
    rw [hf]
    dsimp only
    rw [hc]

/-- C9 witness: a concrete successful run hands the runtime the empty
template with its relations replaced by the synthesized relation list. -/
theorem Tester_run_frame_witness :
    ∃ st : State,
      (Tester_run (some sampleCtx) sampleT0 (.str "ping")).2 =
        .ok (sampleCtx.charm_run { name := "ping" } st) ∧
      st.relations = [synthRelation "db" "db"] ∧
      st.leader = (sampleT0.state_template.getD emptyState).leader ∧
      st.config = (sampleT0.state_template.getD emptyState).config ∧
      (Tester_run (some sampleCtx) sampleT0 (.str "ping")).1.state_template =
        sampleT0.state_template :=
  Tester_run_frame sampleCtx sampleT0 (.str "ping")
    [synthRelation "db" "db"] (synthRelation "db" "db") { name := "ping" }
    rfl rfl rfl

/-! ## Schema validation aggregation -/

theorem length_filterMap_eq_length_filter {α β : Type} (f : α → Option β)
    (l : List α) :
    (l.filterMap f).length = (l.filter (fun x => (f x).isSome)).length := by
  induction l with
  | nil => rfl
  | cons a l ih =>
    cases h : f a <;> simp [List.filterMap_cons, List.filter_cons, h, ih]

/-- C6: with `run()` done and a schema resolved, `assert_schema_valid`
validates the `{unit, app}` databag pair of every output relation matching
the tested interface, collecting failures without short-circuiting: with
exactly `k` failing relations it raises a single `SchemaValidationError`
carrying exactly `k` messages (one per failing relation), and raises
nothing when `k = 0`. -/
theorem assert_schema_valid_spec (ctx : InterfaceTestContext)
    (t : TesterState) (schema : Option DataBagSchema)
    (dbs : DataBagSchema) (out : State)
    (hrun : t.has_run = true) (hout : t.state_out = some out)
    (hres : schema.orElse (fun _ => ctx.schema) = some dbs) :
    (let matching :=
      out.relations.filter (fun r => r.interface == ctx.interface_name)
    let failing := matching.filter
      (fun r => (dbs.validate r.local_unit_data r.local_app_data).isSome)
    let msgs := matching.filterMap
      (fun r => dbs.validate r.local_unit_data r.local_app_data)
    msgs.length = failing.length ∧
    (assert_schema_valid ctx t schema).2 =
      (if failing.length = 0 then .ok ()
       else .error (.schemaValidation msgs))) := by
  have hlen := length_filterMap_eq_length_filter
    (fun r : Relation => dbs.validate r.local_unit_data r.local_app_data)
    (out.relations.filter (fun r => r.interface == ctx.interface_name))
  refine ⟨hlen, ?_⟩
  unfold assert_schema_valid
  rw [show ({ t with has_checked_schema := true } : TesterState).has_run =
    t.has_run from rfl, hrun]
  rw [if_neg (by simp)]
  dsimp only
  rw [hres]
  dsimp only
  rw [show ({ t with has_checked_schema := true } : TesterState).state_out =
    t.state_out from rfl, hout]
  dsimp only [Option.getD]
  have hiff : ∀ l : List String, l.isEmpty = true ↔ l.length = 0 := by
    intro l
    cases l <;> simp
  split <;> rename_i hemp
  · rw [if_pos (hlen.symm.trans ((hiff _).mp hemp))]
  · rw [if_neg (fun hc => hemp ((hiff _).mpr (hlen.trans hc)))]

/-- A schema whose validator rejects empty unit databags. -/
def sampleSchema : DataBagSchema :=
  { validate := fun unit_data _ =>
      if unit_data.isEmpty then some "unit databag empty" else none }

/-- A second tested-interface relation, carrying non-empty unit data. -/
def relDb2 : Relation :=
  { interface := "db", endpoint := "e2", local_unit_data := [("k", "v")] }

/-- A tester that ran and produced an output state with two relations
matching the tested interface (one failing the sample schema) and one
unrelated relation. -/
def sampleTOut : TesterState :=
  { state_in := emptyState, has_run := true,
    state_out := some { relations := [relOther, relDbI, relDb2] } }

/-- C6 witness: of the two matching relations exactly one fails, and the
call raises a `SchemaValidationError` carrying exactly that one message. -/
theorem assert_schema_valid_spec_witness :
    (assert_schema_valid
      { sampleCtx with schema := some sampleSchema } sampleTOut none).2 =
      .error (.schemaValidation ["unit databag empty"]) :=
  (assert_schema_valid_spec { sampleCtx with schema := some sampleSchema }
    sampleTOut none sampleSchema { relations := [relOther, relDbI, relDb2] }
    rfl rfl rfl).2

/-! ## Characterizing the string branch of event coercion -/

theorem rfindAux_eq_some {p : Nat → Bool} {n i : Nat}
    (h : rfindAux p n = some i) :
    p i = true ∧ i < n ∧ ∀ j, i < j → j < n → p j = false := by
  induction n with
  | zero => cases h
  | succ n ih =>
    unfold rfindAux at h
    by_cases hp : p n = true
    · rw [if_pos hp] at h
      cases h
      exact ⟨hp, Nat.lt_succ_self _, fun j h1 h2 => absurd h2 (by omega)⟩
    · rw [if_neg hp] at h
      obtain ⟨h1, h2, h3⟩ := ih h
      refine ⟨h1, by omega, fun j hj1 hj2 => ?_⟩
      rcases Nat.lt_succ_iff_lt_or_eq.mp hj2 with h' | h'
      · exact h3 j hj1 h'
      · subst h'
        simpa using hp

theorem rfindAux_eq_none {p : Nat → Bool} {n : Nat}
    (h : rfindAux p n = none) : ∀ j, j < n → p j = false := by
  induction n with
  | zero => exact fun j hj => absurd hj (by omega)
  | succ n ih =>
    unfold rfindAux at h
    by_cases hp : p n = true
    · rw [if_pos hp] at h
      cases h
    · rw [if_neg hp] at h
      intro j hj
      rcases Nat.lt_succ_iff_lt_or_eq.mp hj with h' | h'
      · exact ih h j h'
      · subst h'
        simpa using hp

theorem isPrefixOf_drop_of_decomp {s a sep b : List Char}
    (h : s = a ++ sep ++ b) :
    List.isPrefixOf sep (s.drop a.length) = true := by
  subst h
  rw [List.append_assoc, List.drop_left]
  exact List.isPrefixOf_iff_prefix.mpr ⟨b, rfl⟩

theorem decomp_of_isPrefixOf_drop {s sep : List Char} {i : Nat}
    (h : List.isPrefixOf sep (s.drop i) = true) :
    s = s.take i ++ sep ++ s.drop (i + sep.length) := by
  obtain ⟨t, ht⟩ := List.isPrefixOf_iff_prefix.mp h
  have h1 : s.drop i = sep ++ t := ht.symm
  have h2 : s.drop (i + sep.length) = t := by
    rw [← List.drop_drop, h1, List.drop_left]
  calc s = s.take i ++ s.drop i := (List.take_append_drop i s).symm
    _ = s.take i ++ (sep ++ t) := by rw [h1]
    _ = s.take i ++ sep ++ s.drop (i + sep.length) := by
        rw [h2, List.append_assoc]

theorem add_length_le_of_isPrefixOf_drop {s sep : List Char} {j : Nat}
    (hsep : sep ≠ [])
    (h : List.isPrefixOf sep (s.drop j) = true) :
    j + sep.length ≤ s.length := by
  obtain ⟨t, ht⟩ := List.isPrefixOf_iff_prefix.mp h
  have hl := congrArg List.length ht
  simp only [List.length_append, List.length_drop] at hl
  have hpos : 0 < sep.length := List.length_pos.mpr hsep
  omega

/-- C5 (amended): for a string argument, coercion splits at the LAST
occurrence of `"-relation-"`: when the string decomposes as
`a ++ "-relation-" ++ b` around that last occurrence, a bound Event (with
the relation under test, endpoint replaced by `a`) is produced exactly when
both `a` and the trailing part `b` are non-empty — the trailing part is NOT
required to be one of the relation lifecycle kinds; in every other case
(including no occurrence at all) an unbound Event with that name is
produced. -/
theorem coerce_event_string_spec (s : String) (rel : Relation) :
    ((¬ ∃ a b : List Char, s.data = a ++ sepChars ++ b) →
      _coerce_event (.str s) rel = .ok { name := s }) ∧
    (∀ a b : List Char, s.data = a ++ sepChars ++ b →
      (∀ a' b' : List Char, s.data = a' ++ sepChars ++ b' →
        a'.length ≤ a.length) →
      _coerce_event (.str s) rel =
        (if a ≠ [] ∧ b ≠ [] then
          .ok { name := s,
                relation := some { rel with endpoint := String.mk a },
                is_relation_event := true }
         else .ok { name := s })) := by
  constructor
  · intro hno
    have hr : rfindIdx sepChars s.data = none := by
      unfold rfindIdx
      cases h : rfindAux
          (fun i => List.isPrefixOf sepChars (s.data.drop i))
          (s.data.length + 1) with
      | none => rfl
      | some i =>
        exfalso
        obtain ⟨hp, hlt, _⟩ := rfindAux_eq_some h
        exact hno ⟨s.data.take i, s.data.drop (i + sepChars.length),
          decomp_of_isPrefixOf_drop hp⟩
    simp [_coerce_event, rpartition, hr]
  · intro a b hdec hmax
    have hpa : List.isPrefixOf sepChars (s.data.drop a.length) = true :=
      isPrefixOf_drop_of_decomp hdec
    have hlen : a.length + sepChars.length ≤ s.data.length :=
      add_length_le_of_isPrefixOf_drop (by decide) hpa
    obtain ⟨i, hi⟩ : ∃ i, rfindAux
        (fun j => List.isPrefixOf sepChars (s.data.drop j))
        (s.data.length + 1) = some i := by
      cases h : rfindAux
          (fun j => List.isPrefixOf sepChars (s.data.drop j))
          (s.data.length + 1) with
      | some i => exact ⟨i, rfl⟩
      | none =>
        have := rfindAux_eq_none h a.length (by omega)
        simp only [this] at hpa
        cases hpa
    obtain ⟨hp, hlt, hmaxfn⟩ := rfindAux_eq_some hi
    have hdeci : s.data =
        s.data.take i ++ sepChars ++ s.data.drop (i + sepChars.length) :=
      decomp_of_isPrefixOf_drop hp
    have h1 : i ≤ a.length := by
      have := hmax (s.data.take i) (s.data.drop (i + sepChars.length)) hdeci
      rwa [List.length_take, Nat.min_eq_left (by omega)] at this
    have h2 : a.length ≤ i := by
      by_contra hcon
      push_neg at hcon
      have := hmaxfn a.length hcon (by omega)
      rw [hpa] at this
      cases this
    have hieq : i = a.length := Nat.le_antisymm h1 h2
    have hta : s.data.take i = a := by
      rw [hieq, hdec, List.append_assoc, List.take_left]
    have htb : s.data.drop (i + sepChars.length) = b := by
      rw [hieq, hdec, List.append_assoc,
        show a.length + sepChars.length = (a ++ sepChars).length by simp
          , ← List.append_assoc, List.drop_left]
    have hr : rpartition sepChars s.data = some (a, b) := by
      unfold rpartition rfindIdx
      rw [hi]
      dsimp only
      rw [hta, htb]
    by_cases hab : a ≠ [] ∧ b ≠ []
    · rw [if_pos hab]
      have ha' : a.isEmpty = false := by
        cases a with
        | nil => exact absurd rfl hab.1
        | cons x xs => rfl
      have hb' : b.isEmpty = false := by
        cases b with
        | nil => exact absurd rfl hab.2
        | cons x xs => rfl
      simp [_coerce_event, hr, ha', hb']
    · rw [if_neg hab]
      have hcond : (!a.isEmpty && !b.isEmpty) = false := by
        rcases not_and_or.mp hab with h | h
        · push_neg at h
          subst h
          rfl
        · push_neg at h
          subst h
          simp
      simp [_coerce_event, hr, hcond]

/-- C5 witness: `"ping"` contains no `"-relation-"` separator, so coercion
yields an unbound Event named `"ping"`. -/
theorem coerce_event_string_spec_witness :
    _coerce_event (.str "ping") relDbI = .ok { name := "ping" } :=
  (coerce_event_string_spec "ping" relDbI).1 (by
    rintro ⟨a, b, h⟩
    have hl := congrArg List.length h
    have h4 : ("ping".data).length = 4 := rfl
    have h10 : sepChars.length = 10 := rfl
    simp only [List.length_append, h4, h10] at hl
    omega)

/-- Modelled from the claim's wording: a string "of the form
`<endpoint>-relation-<kind>`" with a non-empty endpoint and `kind` one of
the five relation lifecycle kinds. -/
def spec_relationLifecycleKinds : List String :=
  ["created", "joined", "changed", "broken", "departed"]

/-- Modelled from the claim's wording: decides membership in the claimed
pattern (some non-empty endpoint followed by `-relation-` and a lifecycle
kind). -/
def spec_isRelationLifecycleForm (s : String) : Bool :=
  spec_relationLifecycleKinds.any (fun kind =>
    let suffix := sepChars ++ kind.data
    List.isSuffixOf suffix s.data && decide (suffix.length < s.data.length))

/-- C5 counterexample: `"foo-relation-bar"` is NOT of the claimed lifecycle
form (`bar` is not a relation lifecycle kind), yet the code returns a BOUND
Event for it — the claim's "for every string not of that form, it returns
an unbound Event" is false. -/
theorem coerce_event_string_counterexample :
    spec_isRelationLifecycleForm "foo-relation-bar" = false ∧
    _coerce_event (.str "foo-relation-bar") relDbI =
      .ok { name := "foo-relation-bar",
            relation := some { relDbI with endpoint := "foo" },
            is_relation_event := true } := by
  exact ⟨by decide, by decide⟩

end InterfaceTest
